import Mathlib

set_option maxHeartbeats 1000000

/-!
Verification of the reference-counted object lifetime subsystem and the
symbol-demangling wrappers of the swift-bindgen repository.

The Rust sources embedded here are:
- src/swift-rt/src/sym.rs  (demangle, demangle_into, DemangleError)
- src/swift-rt/src/obj.rs  (Owned, Unowned, Weak handles)
- src/swift-sys/src/heap.rs (extern declarations of the runtime protocol)

The bodies of the runtime functions (swift_retain, swift_release,
swift_weakLoadStrong, ...) are extern "C" declarations whose implementations
live outside this repository; they are modelled from the specification of the
reference-count protocol, as marked on each definition.
-/

namespace SwiftBindgen

/-! ## Symbol demangling (src/swift-rt/src/sym.rs) -/

/-- The error type of src/swift-rt/src/sym.rs: `struct DemangleError(())`,
a single-valued type distinct from success. -/
inductive DemangleError where
  | failedToDemangle
deriving DecidableEq, Repr

/-- A growable byte buffer standing for `Vec<u8>`: `data` is the initialized
content (`len` is `data.length`) and `cap` is the allocated capacity.  A valid
`Vec` maintains `data.length ≤ cap`. -/
structure ByteBuf where
  data : List Nat
  cap : Nat
deriving DecidableEq, Repr

/-- `Vec::reserve(additional)`: guarantees capacity at least
`len + additional` and does nothing when the existing capacity already
satisfies that bound.  A real `Vec` may over-allocate when it does grow; this
model grows to exactly the guaranteed minimum, and is exact on the
no-growth branch, which is the only branch the theorems below depend on
exactly. -/
def ByteBuf.reserve (b : ByteBuf) (additional : Nat) : ByteBuf :=
  if b.data.length + additional ≤ b.cap then b
  else { b with cap := b.data.length + additional }

/-- Shallow embedding of `demangle_into` from src/swift-rt/src/sym.rs.

The external `swift_demangle` function is abstracted by the parameter `dem`:
`dem symbol = none` exactly when the first `swift_demangle` call returns null
(the input is not a recognized Swift mangled name), and `dem symbol = some out`
when demangling succeeds with output bytes `out` (so `demangled_len` is
`out.length`).

The body mirrors the source line by line: compute `old_len` and
`rem_capacity`; query the demangled length; on null return the typed error
with the buffer untouched; otherwise reserve `demangled_len - rem_capacity`
additional elements when `rem_capacity < demangled_len`; then `set_len` to
`old_len + demangled_len` and write the demangled bytes starting at offset
`old_len`.  The pointer-level write is represented as appending `out` to the
existing content; the `cap` field records the allocation size the write must
fit inside. -/
def demangle_into (dem : List Nat → Option (List Nat)) (symbol : List Nat)
    (buffer : ByteBuf) : Except DemangleError (List Nat) × ByteBuf :=
  let old_len := buffer.data.length
  let rem_capacity := buffer.cap - old_len
  match dem symbol with
  | none => (Except.error DemangleError.failedToDemangle, buffer)
  | some out =>
      let demangled_len := out.length
      let buffer1 :=
        if rem_capacity < demangled_len then
          buffer.reserve (demangled_len - rem_capacity)
        else buffer
      (Except.ok out, { data := buffer1.data ++ out, cap := buffer1.cap })

/-- Shallow embedding of `demangle` from src/swift-rt/src/sym.rs: create an
empty `String` (length 0, capacity 0), run `demangle_into` on its byte vector,
propagate the error, and otherwise return the accumulated bytes. -/
def demangle (dem : List Nat → Option (List Nat)) (symbol : List Nat) :
    Except DemangleError (List Nat) :=
  match demangle_into dem symbol { data := [], cap := 0 } with
  | (Except.error e, _) => Except.error e
  | (Except.ok _, buf) => Except.ok buf.data

/-! ## Reference counting: object state

The runtime protocol (src/swift-sys/src/heap.rs) is a set of extern "C"
declarations; the state below models, from the specification, the portion of
the runtime state the handle claims depend on: the counters and deallocating
flag of one heap object, a teardown-invocation counter, and the state of the
single weak reference slot under consideration. -/

/-- Modelled from the spec: the RefCountWord of one heap object (strong,
unowned and weak counters plus the deallocating flag), together with
bookkeeping the claims observe: `objPtr` is the address of the heap object
(`0` is the null sentinel), `teardownCalls` counts invocations of the value
witness `destroy` entry at the strong-count zero transition, `slotBound`
records whether the weak reference slot is currently bound to the object, and
`slotDestroyCalls` counts invocations of `swift_weakDestroy` on the slot. -/
structure ObjState where
  objPtr : Nat
  strong : Nat
  unownedCnt : Nat
  weakCnt : Nat
  deallocating : Bool
  teardownCalls : Nat
  slotBound : Bool
  slotDestroyCalls : Nat
deriving DecidableEq, Repr

/-- Modelled from the spec: `swift_retain` (atomic strong retain).  A null
object pointer is a no-op; otherwise the strong count is incremented by one.
Returns the same object pointer to support call chaining. -/
def swift_retain (p : Nat) (s : ObjState) : Nat × ObjState :=
  if p = 0 then (p, s) else (p, { s with strong := s.strong + 1 })

/-- Modelled from the spec: `swift_nonatomic_retain`, the non-atomic variant
of `swift_retain`; in this sequential model its effect on the counters is the
same, and it equally returns the same object pointer. -/
def swift_nonatomic_retain (p : Nat) (s : ObjState) : Nat × ObjState :=
  if p = 0 then (p, s) else (p, { s with strong := s.strong + 1 })

/-- Modelled from the spec: `swift_release`.  A null object pointer is a
no-op; otherwise the strong count is decremented by one, and on the
transition to zero the deallocating flag is set and the value witness table
`destroy` entry is invoked on the payload (counted by `teardownCalls`). -/
def swift_release (p : Nat) (s : ObjState) : ObjState :=
  if p = 0 then s
  else if s.strong = 1 then
    { s with
      strong := 0
      deallocating := true
      teardownCalls := s.teardownCalls + 1 }
  else { s with strong := s.strong - 1 }

/-- Modelled from the spec: `swift_weakLoadStrong`, a single atomic step.  If
the slot target is non-null (the slot is bound) and the object is not already
in the deallocating state, a strong retain is performed and the object
pointer is returned; otherwise null is returned and nothing changes. -/
def swift_weakLoadStrong (s : ObjState) : Nat × ObjState :=
  if s.slotBound && !s.deallocating then
    (s.objPtr, { s with strong := s.strong + 1 })
  else (0, s)

/-- Modelled from the spec: unbinding a weak reference slot.  A bound slot
stops pointing at the object and gives up its unit of the weak counter; an
already unbound slot holds no target and nothing changes. -/
def weakUnbind (s : ObjState) : ObjState :=
  if s.slotBound then { s with slotBound := false, weakCnt := s.weakCnt - 1 }
  else s

/-- Modelled from the spec: `swift_weakTakeStrong`, same result as
`swift_weakLoadStrong` but additionally unbinding the slot (decrementing the
weak counter), leaving the slot ready for destruction without a further
unbind step. -/
def swift_weakTakeStrong (s : ObjState) : Nat × ObjState :=
  let r := swift_weakLoadStrong s
  (r.1, weakUnbind r.2)

/-- Modelled from the spec: `swift_weakDestroy` unconditionally unbinds the
slot (a no-op on the counters when the slot is already unbound, since an
unbound slot points at nothing) and releases the slot storage; the call is
counted by `slotDestroyCalls`. -/
def swift_weakDestroy (s : ObjState) : ObjState :=
  let s1 := weakUnbind s
  { s1 with slotDestroyCalls := s1.slotDestroyCalls + 1 }

/-! ## Reference handles (src/swift-rt/src/obj.rs)

`Owned` wraps a `NonNull<HeapObject>`; the wrapped pointer value is `ptr`.
State-changing handle operations take and return the explicit `ObjState`. -/

/-- The `Owned` handle of src/swift-rt/src/obj.rs: a transparent wrapper
around the `NonNull<HeapObject>` pointer value. -/
structure Owned where
  ptr : Nat
deriving DecidableEq, Repr

/-- `Owned::as_ptr` returns the wrapped pointer (`self.0.as_ptr()`). -/
def Owned.as_ptr (o : Owned) : Nat := o.ptr

/-- `impl Clone for Owned`: `self.retain()` (which calls `swift_retain` on
`self.as_ptr()`) followed by `Self(self.0)`. -/
def Owned.clone (o : Owned) (s : ObjState) : Owned × ObjState :=
  ({ ptr := o.ptr }, (swift_retain o.as_ptr s).2)

/-- `Owned::nonatomic_clone`: `self.nonatomic_retain()` followed by
`Self(self.0)`. -/
def Owned.nonatomic_clone (o : Owned) (s : ObjState) : Owned × ObjState :=
  ({ ptr := o.ptr }, (swift_nonatomic_retain o.as_ptr s).2)

/-- `impl Drop for Owned`: `self.release()`, which calls `swift_release` on
`self.as_ptr()`. -/
def Owned.dropHandle (o : Owned) (s : ObjState) : ObjState :=
  swift_release o.as_ptr s

/-- The `Weak` handle of src/swift-rt/src/obj.rs: a transparent wrapper
around the `NonNull<WeakReference>` slot pointer. -/
structure Weak where
  slotPtr : Nat
deriving DecidableEq, Repr

/-- `Weak::load`: calls `swift_weakLoadStrong` on the slot, then
`NonNull::new(obj)?` turns a null result into `None` and a non-null result
into `Some(Owned(ptr))`. -/
def Weak.load (s : ObjState) : Option Owned × ObjState :=
  let r := swift_weakLoadStrong s
  if r.1 = 0 then (none, r.2) else (some { ptr := r.1 }, r.2)

/-- `impl Drop for Weak`: calls `swift_weakDestroy` on the slot. -/
def Weak.dropHandle (s : ObjState) : ObjState :=
  swift_weakDestroy s

/-- `Weak::take(self)`: calls `swift_weakTakeStrong` on the slot and wraps
the result like `load`.  Because `take` receives `self` by value and `Weak`
implements `Drop`, `self` is dropped when it goes out of scope at the end of
the function body (on the early `?` return as well), so `swift_weakDestroy`
runs after `swift_weakTakeStrong` on both paths. -/
def Weak.take (s : ObjState) : Option Owned × ObjState :=
  let r := swift_weakTakeStrong s
  if r.1 = 0 then (none, swift_weakDestroy r.2)
  else (some { ptr := r.1 }, swift_weakDestroy r.2)

/-- `impl Clone for Weak`: the body is
`unimplemented!("TODO: Figure out how to copy weak references")`, an
unconditional panic.  The panic is embedded as the error outcome; no new
handle is produced and no state is returned (the slot is untouched). -/
def Weak.cloneHandle (_ : Weak) (_ : ObjState) :
    Except String (Weak × ObjState) :=
  Except.error "not implemented: TODO: Figure out how to copy weak references"

/-! ## Operation sequences for the counting claim -/

/-- A strong-reference operation: `retain` stands for `Owned::clone`
(equivalently `retain`), `release` for dropping an `Owned` handle. -/
inductive RcOp where
  | retain
  | release
deriving DecidableEq, Repr

/-- One operation on the shared object, performed through the `Owned` handle
code of src/swift-rt/src/obj.rs (every handle to the object wraps the same
pointer `s.objPtr`). -/
def stepOp (s : ObjState) : RcOp → ObjState
  | RcOp.retain => (Owned.clone { ptr := s.objPtr } s).2
  | RcOp.release => Owned.dropHandle { ptr := s.objPtr } s

/-- Run a sequence of operations left to right. -/
def runOps (s : ObjState) : List RcOp → ObjState
  | [] => s
  | op :: rest => runOps (stepOp s op) rest

/-- The number of retains in a sequence. -/
def numRetains : List RcOp → Nat
  | [] => 0
  | RcOp.retain :: rest => numRetains rest + 1
  | RcOp.release :: rest => numRetains rest

/-- The number of releases in a sequence. -/
def numReleases : List RcOp → Nat
  | [] => 0
  | RcOp.retain :: rest => numReleases rest
  | RcOp.release :: rest => numReleases rest + 1

/-- Handle discipline: starting from strong count `c`, every operation is
performed while the object is still strongly referenced (a handle can only be
cloned or dropped while it exists, so the count is at least 1 before each
operation). -/
def validOps : Nat → List RcOp → Bool
  | _, [] => true
  | c, RcOp.retain :: rest => decide (1 ≤ c) && validOps (c + 1) rest
  | c, RcOp.release :: rest => decide (1 ≤ c) && validOps (c - 1) rest

/-- Clone the initial handle `k` times, then drop all `k + 1` handles. -/
def cloneDropSeq (k : Nat) : List RcOp :=
  List.replicate k RcOp.retain ++ List.replicate (k + 1) RcOp.release

/-! ## Interleavings for the concurrency claim -/

/-- Both interleavings of one final release (a thread dropping the last
`Owned` handle) with one `Weak::load` by another thread.  Per the
specification each runtime call is a single atomic step, so the two orders
are the only observable schedules. -/
def c8Run (loadFirst : Bool) (s : ObjState) : Option Owned × ObjState :=
  if loadFirst then
    let r := Weak.load s
    (r.1, Owned.dropHandle { ptr := s.objPtr } r.2)
  else
    Weak.load (Owned.dropHandle { ptr := s.objPtr } s)

/-! ## Handle representation for the as_ptr claim

`Unowned` is `#[repr(transparent)]` over `NonNull<HeapObject>`, so an
`Unowned` value stored at address `selfAddr` is exactly the pointer word
`value` stored at that address.  `Object`, by contrast, is
`#[repr(transparent)]` over `HeapObject` itself, for which casting `self` to
a heap-object pointer is correct. -/

/-- The in-memory representation of an `Unowned` handle: the handle value
(the wrapped `NonNull<HeapObject>` word `value`) resides at address
`selfAddr`. -/
structure UnownedRepr where
  selfAddr : Nat
  value : Nat
deriving DecidableEq, Repr

/-- `Unowned::as_ptr` as written in src/swift-rt/src/obj.rs lines 233-236:
`self as *const Self as *mut HeapObject`, i.e. the address of the handle
itself. -/
def UnownedRepr.as_ptr (h : UnownedRepr) : Nat := h.selfAddr

/-- The in-memory representation of an `Owned` handle, for comparison: the
same layout as `UnownedRepr`. -/
structure OwnedRepr where
  selfAddr : Nat
  value : Nat
deriving DecidableEq, Repr

/-- `Owned::as_ptr` as written in src/swift-rt/src/obj.rs lines 96-100:
`self.0.as_ptr()`, i.e. the stored pointer value. -/
def OwnedRepr.as_ptr (h : OwnedRepr) : Nat := h.value

/-! ## Theorems -/

/-- Claim C5: for every input byte sequence, `demangle_into` returns the
typed malformed-input error exactly when the input is not a recognized
mangled form (`dem symbol = none`), and returns success otherwise; on the
error outcome the caller-supplied buffer is left completely unchanged in
length and contents, so failure is atomic. -/
theorem c5_demangle_into_error_atomic (dem : List Nat → Option (List Nat))
    (symbol : List Nat) (buffer : ByteBuf) :
    (dem symbol = none →
      demangle_into dem symbol buffer
        = (Except.error DemangleError.failedToDemangle, buffer))
    ∧ (∀ out, dem symbol = some out →
        (demangle_into dem symbol buffer).1 = Except.ok out) := by
  constructor
  · intro h
    simp [demangle_into, h]
  · intro out h
    simp [demangle_into, h]

/-- Witness for C5 at a concrete rejecting oracle, a concrete accepting
oracle and a concrete buffer. -/
theorem c5_demangle_into_error_atomic_witness :
    demangle_into (fun _ => none) [1, 2] { data := [7], cap := 1 }
        = (Except.error DemangleError.failedToDemangle,
           { data := [7], cap := 1 })
    ∧ (demangle_into (fun _ => some [65]) [1, 2]
        { data := [7], cap := 1 }).1 = Except.ok [65] :=
  ⟨(c5_demangle_into_error_atomic (fun _ => none) [1, 2]
      { data := [7], cap := 1 }).1 rfl,
   (c5_demangle_into_error_atomic (fun _ => some [65]) [1, 2]
      { data := [7], cap := 1 }).2 [65] rfl⟩

/-- Claim C6 is refuted by the code: with a buffer holding 1 byte at
capacity 3 and a symbol whose demangled form has 3 bytes, `rem_capacity = 2`
is less than `demangled_len = 3`, so the code calls
`reserve(demangled_len - rem_capacity) = reserve(1)`; `Vec::reserve`
guarantees only `capacity ≥ len + additional = 2` and does nothing because
the existing capacity 3 already satisfies that, so the following
`set_len(old_len + demangled_len) = set_len(4)` and the 3-byte write at
offset 1 run past the 3-byte allocation: the resulting vector length 4
exceeds the capacity 3, violating the `set_len` precondition
`new_len ≤ capacity` (a heap buffer overflow), under which no content
preservation is guaranteed. -/
theorem c6_reserve_under_allocates :
    (demangle_into (fun _ => some [10, 11, 12]) [1]
        { data := [7], cap := 3 }).2 = { data := [7, 10, 11, 12], cap := 3 }
    ∧ ((demangle_into (fun _ => some [10, 11, 12]) [1]
        { data := [7], cap := 3 }).2).cap
        < ((demangle_into (fun _ => some [10, 11, 12]) [1]
            { data := [7], cap := 3 }).2).data.length := by
  constructor
  · rfl
  · decide

/-- Claim C10: the convenience entry point `demangle` behaves exactly as
`demangle_into` applied to a freshly created empty buffer: it fails with the
same error exactly when `demangle_into` fails, and on success the returned
owned byte string consists of exactly the bytes `demangle_into` appends to
the empty buffer. -/
theorem c10_demangle_refines_demangle_into
    (dem : List Nat → Option (List Nat)) (symbol : List Nat) :
    (∀ e, demangle dem symbol = Except.error e ↔
      (demangle_into dem symbol { data := [], cap := 0 }).1 = Except.error e)
    ∧ (∀ out,
        (demangle_into dem symbol { data := [], cap := 0 }).1
            = Except.ok out →
        demangle dem symbol = Except.ok out
        ∧ (demangle_into dem symbol { data := [], cap := 0 }).2.data
            = [] ++ out) := by
  cases h : dem symbol with
  | none =>
      constructor
      · intro e
        simp [demangle, demangle_into, h]
      · intro out hout
        simp [demangle_into, h] at hout
  | some out =>
      constructor
      · intro e
        simp [demangle, demangle_into, h]
      · intro out2 hout
        simp [demangle_into, h] at hout
        subst hout
        simp only [demangle, demangle_into, h, ByteBuf.reserve]
        constructor
        · split
          · split <;> simp
          · simp
        · split
          · split <;> simp
          · simp

/-- Witness for C10 at a concrete oracle and symbol. -/
theorem c10_demangle_refines_demangle_into_witness :
    demangle (fun _ => some [65]) [0] = Except.ok [65]
    ∧ (demangle_into (fun _ => some [65]) [0]
        { data := [], cap := 0 }).2.data = [] ++ [65] :=
  (c10_demangle_refines_demangle_into (fun _ => some [65]) [0]).2 [65] rfl

/-- Claim C3 is refuted by the code: `Unowned::as_ptr` computes
`self as *const Self as *mut HeapObject`, the address of the handle itself,
not the wrapped heap-object pointer stored in `self.0` (which is what
`Owned::as_ptr` returns via `self.0.as_ptr()`).  For an `Unowned` handle
located at address 4096 wrapping the object at address 8192, `as_ptr`
returns 4096, and every `Unowned` operation (clone, drop, retain_count)
routed through `as_ptr` is applied to 4096 rather than 8192. -/
theorem c3_unowned_as_ptr_returns_handle_address :
    UnownedRepr.as_ptr { selfAddr := 4096, value := 8192 } = 4096
    ∧ OwnedRepr.as_ptr { selfAddr := 4096, value := 8192 } = 8192
    ∧ UnownedRepr.as_ptr { selfAddr := 4096, value := 8192 }
        ≠ ({ selfAddr := 4096, value := 8192 } : UnownedRepr).value := by
  refine ⟨rfl, rfl, ?_⟩
  decide

/-- Claim C7: for every `Weak` handle and every state, attempting `clone`
fails fast with the `unimplemented!` panic: it never returns a second `Weak`
handle and, since no successful result (and in particular no state) is
produced, the underlying weak reference slot is neither duplicated nor
touched. -/
theorem c7_weak_clone_panics (w : Weak) (s : ObjState) :
    Weak.cloneHandle w s
      = Except.error
          "not implemented: TODO: Figure out how to copy weak references" :=
  rfl

/-- Claim C2: for every state of the object and slot, `Weak::take(self)` is
equivalent to `Weak::load()` immediately followed by destruction (drop) of
the `Weak` handle: both produce the same Strong-or-absent result and the
same final state; and for a bound slot both leave the weak counter
decremented by exactly one, the slot unbound, and the slot storage destroyed
exactly once (one `swift_weakDestroy` invocation), not twice. -/
theorem c2_take_eq_load_then_drop (s : ObjState) :
    Weak.take s = (let r := Weak.load s; (r.1, Weak.dropHandle r.2))
    ∧ (s.slotBound = true →
        (Weak.take s).2.weakCnt = s.weakCnt - 1
        ∧ (Weak.take s).2.slotBound = false
        ∧ (Weak.take s).2.slotDestroyCalls = s.slotDestroyCalls + 1) := by
  obtain ⟨p, st, u, w, d, t, sb, dc⟩ := s
  constructor
  · cases sb <;> cases d <;>
      simp [Weak.take, Weak.load, Weak.dropHandle, swift_weakTakeStrong,
        swift_weakLoadStrong, swift_weakDestroy, weakUnbind] <;>
      split_ifs <;> simp_all
  · intro hb
    subst hb
    cases d <;>
      simp [Weak.take, swift_weakTakeStrong,
        swift_weakLoadStrong, swift_weakDestroy, weakUnbind] <;>
      split_ifs <;> simp_all

/-- Witness for C2 at a concrete live state with a bound slot. -/
theorem c2_take_eq_load_then_drop_witness :
    (Weak.take
        { objPtr := 1, strong := 1, unownedCnt := 0, weakCnt := 1,
          deallocating := false, teardownCalls := 0, slotBound := true,
          slotDestroyCalls := 0 }).2.weakCnt = 1 - 1
    ∧ (Weak.take
        { objPtr := 1, strong := 1, unownedCnt := 0, weakCnt := 1,
          deallocating := false, teardownCalls := 0, slotBound := true,
          slotDestroyCalls := 0 }).2.slotBound = false
    ∧ (Weak.take
        { objPtr := 1, strong := 1, unownedCnt := 0, weakCnt := 1,
          deallocating := false, teardownCalls := 0, slotBound := true,
          slotDestroyCalls := 0 }).2.slotDestroyCalls = 0 + 1 :=
  (c2_take_eq_load_then_drop
      { objPtr := 1, strong := 1, unownedCnt := 0, weakCnt := 1,
        deallocating := false, teardownCalls := 0, slotBound := true,
        slotDestroyCalls := 0 }).2 rfl

/-- Claim C4: while the slot is bound, `Weak::load` returns a new Strong
handle to the same object (same pointer) whenever the object is not
deallocating (at least one Strong handle alive), incrementing the strong
count and leaving the weak handle intact and reusable (slot binding, weak
counter and slot storage untouched); dropping the new Strong handle restores
the strong count, keeps the object out of the deallocating state and
triggers no teardown, so the original Strong handles stay valid.  After the
last Strong handle is dropped (the object is deallocating), `load` returns
`None` and changes nothing; in particular dropping the last Strong handle
and then loading yields `None`. -/
theorem c4_weak_load (s : ObjState) (hp : s.objPtr ≠ 0)
    (hb : s.slotBound = true) :
    (s.deallocating = false →
      (Weak.load s).1 = some { ptr := s.objPtr }
      ∧ (Weak.load s).2.strong = s.strong + 1
      ∧ (Weak.load s).2.slotBound = true
      ∧ (Weak.load s).2.weakCnt = s.weakCnt
      ∧ (Weak.load s).2.slotDestroyCalls = s.slotDestroyCalls
      ∧ (1 ≤ s.strong →
          (Owned.dropHandle { ptr := s.objPtr } (Weak.load s).2).strong
              = s.strong
          ∧ (Owned.dropHandle { ptr := s.objPtr }
              (Weak.load s).2).deallocating = false
          ∧ (Owned.dropHandle { ptr := s.objPtr }
              (Weak.load s).2).teardownCalls = s.teardownCalls))
    ∧ (s.deallocating = true → (Weak.load s).1 = none ∧ (Weak.load s).2 = s)
    ∧ (s.strong = 1 → s.deallocating = false →
        (Weak.load (Owned.dropHandle { ptr := s.objPtr } s)).1 = none) := by
  obtain ⟨p, st, u, w, d, t, sb, dc⟩ := s
  simp only at hp hb
  subst hb
  refine ⟨?_, ?_, ?_⟩
  · intro hd
    simp only at hd
    subst hd
    simp [Weak.load, swift_weakLoadStrong, Owned.dropHandle, Owned.as_ptr,
      swift_release, hp]
    intro hst
    have hst0 : ¬ st = 0 := by omega
    simp [hst0]
  · intro hd
    simp only at hd
    subst hd
    simp [Weak.load, swift_weakLoadStrong]
  · intro hst hd
    simp only at hst hd
    subst hst; subst hd
    simp [Weak.load, swift_weakLoadStrong, Owned.dropHandle, Owned.as_ptr,
      swift_release, hp]

/-- Witness for C4: a live state with two Strong handles loads successfully,
and a state whose last Strong handle is then dropped loads `None`. -/
theorem c4_weak_load_witness :
    (Weak.load
        { objPtr := 1, strong := 2, unownedCnt := 0, weakCnt := 1,
          deallocating := false, teardownCalls := 0, slotBound := true,
          slotDestroyCalls := 0 }).1 = some { ptr := 1 }
    ∧ (Weak.load (Owned.dropHandle { ptr := 1 }
        { objPtr := 1, strong := 1, unownedCnt := 0, weakCnt := 1,
          deallocating := false, teardownCalls := 0, slotBound := true,
          slotDestroyCalls := 0 })).1 = none :=
  ⟨((c4_weak_load
      { objPtr := 1, strong := 2, unownedCnt := 0, weakCnt := 1,
        deallocating := false, teardownCalls := 0, slotBound := true,
        slotDestroyCalls := 0 } (by decide) rfl).1 rfl).1,
   (c4_weak_load
      { objPtr := 1, strong := 1, unownedCnt := 0, weakCnt := 1,
        deallocating := false, teardownCalls := 0, slotBound := true,
        slotDestroyCalls := 0 } (by decide) rfl).2.2 rfl rfl⟩

/-- Claim C9: `swift_retain` (and its non-atomic variant) returns the very
pointer it was given, supporting call chaining; `Owned::clone` and
`Owned::nonatomic_clone` return a handle whose `as_ptr` equals the original
handle's `as_ptr`, and for a non-null handle the only state change is the
strong count incremented by one; retain and release on the null sentinel are
no-ops that never fault. -/
theorem c9_retain_returns_pointer (p : Nat) (o : Owned) (s : ObjState) :
    (swift_retain p s).1 = p
    ∧ (swift_nonatomic_retain p s).1 = p
    ∧ (Owned.clone o s).1.as_ptr = o.as_ptr
    ∧ (Owned.nonatomic_clone o s).1.as_ptr = o.as_ptr
    ∧ (o.ptr ≠ 0 →
        (Owned.clone o s).2 = { s with strong := s.strong + 1 }
        ∧ (Owned.nonatomic_clone o s).2 = { s with strong := s.strong + 1 })
    ∧ swift_retain 0 s = (0, s)
    ∧ swift_release 0 s = s := by
  refine ⟨?_, ?_, rfl, rfl, ?_, rfl, rfl⟩
  · simp [swift_retain]; split_ifs <;> rfl
  · simp [swift_nonatomic_retain]; split_ifs <;> rfl
  · intro hp
    simp [Owned.clone, Owned.nonatomic_clone, Owned.as_ptr, swift_retain,
      swift_nonatomic_retain, hp]

/-- Witness for C9 at a concrete non-null handle and state. -/
theorem c9_retain_returns_pointer_witness :
    (Owned.clone { ptr := 7 }
        { objPtr := 7, strong := 1, unownedCnt := 0, weakCnt := 0,
          deallocating := false, teardownCalls := 0, slotBound := false,
          slotDestroyCalls := 0 }).2
      = { objPtr := 7, strong := 2, unownedCnt := 0, weakCnt := 0,
          deallocating := false, teardownCalls := 0, slotBound := false,
          slotDestroyCalls := 0 }
    ∧ (Owned.nonatomic_clone { ptr := 7 }
        { objPtr := 7, strong := 1, unownedCnt := 0, weakCnt := 0,
          deallocating := false, teardownCalls := 0, slotBound := false,
          slotDestroyCalls := 0 }).2
      = { objPtr := 7, strong := 2, unownedCnt := 0, weakCnt := 0,
          deallocating := false, teardownCalls := 0, slotBound := false,
          slotDestroyCalls := 0 } :=
  (c9_retain_returns_pointer 5 { ptr := 7 }
      { objPtr := 7, strong := 1, unownedCnt := 0, weakCnt := 0,
        deallocating := false, teardownCalls := 0, slotBound := false,
        slotDestroyCalls := 0 }).2.2.2.2.1 (by decide)

/-- Claim C8: for an object with exactly one Strong handle and a bound weak
slot, interleaving the final release (the release that transitions the
strong count to zero and sets the deallocating flag) with a concurrent
`weak_load_strong` — each a single atomic step, per the specification the
linearizability requirement on the deallocating flag — always yields a
consistent outcome: either the load completes a full strong retain before
the zero transition (it returns a Strong to the object, the release then
lowers the count from 2 to 1 and no teardown happens), or the load observes
the deallocating state and returns absent (after the teardown ran once);
in no interleaving does the load return a handle while the object has been
half-destroyed (teardown invoked). -/
theorem c8_final_release_weak_load_linearizable (ord : Bool) (s : ObjState)
    (hp : s.objPtr ≠ 0) (h1 : s.strong = 1) (hd : s.deallocating = false)
    (hb : s.slotBound = true) (ht : s.teardownCalls = 0) :
    ((c8Run ord s).1 = none →
        (c8Run ord s).2.teardownCalls = 1
        ∧ (c8Run ord s).2.deallocating = true)
    ∧ ((c8Run ord s).1 ≠ none →
        (c8Run ord s).1 = some { ptr := s.objPtr }
        ∧ (c8Run ord s).2.teardownCalls = 0
        ∧ (c8Run ord s).2.strong = 1
        ∧ (c8Run ord s).2.deallocating = false)
    ∧ ¬((c8Run ord s).1 ≠ none ∧ 1 ≤ (c8Run ord s).2.teardownCalls) := by
  obtain ⟨p, st, u, w, d, t, sb, dc⟩ := s
  simp only at hp h1 hd hb ht
  subst h1; subst hd; subst hb; subst ht
  cases ord <;>
    simp [c8Run, Weak.load, swift_weakLoadStrong, Owned.dropHandle,
      Owned.as_ptr, swift_release, hp]

/-- Witness for C8 at a concrete state, under both schedules. -/
theorem c8_final_release_weak_load_linearizable_witness :
    ((c8Run false
        { objPtr := 1, strong := 1, unownedCnt := 0, weakCnt := 1,
          deallocating := false, teardownCalls := 0, slotBound := true,
          slotDestroyCalls := 0 }).1 = none →
      (c8Run false
        { objPtr := 1, strong := 1, unownedCnt := 0, weakCnt := 1,
          deallocating := false, teardownCalls := 0, slotBound := true,
          slotDestroyCalls := 0 }).2.teardownCalls = 1
      ∧ (c8Run false
          { objPtr := 1, strong := 1, unownedCnt := 0, weakCnt := 1,
            deallocating := false, teardownCalls := 0, slotBound := true,
            slotDestroyCalls := 0 }).2.deallocating = true)
    ∧ ¬((c8Run true
          { objPtr := 1, strong := 1, unownedCnt := 0, weakCnt := 1,
            deallocating := false, teardownCalls := 0, slotBound := true,
            slotDestroyCalls := 0 }).1 ≠ none
        ∧ 1 ≤ (c8Run true
            { objPtr := 1, strong := 1, unownedCnt := 0, weakCnt := 1,
              deallocating := false, teardownCalls := 0, slotBound := true,
              slotDestroyCalls := 0 }).2.teardownCalls) :=
  ⟨(c8_final_release_weak_load_linearizable false
      { objPtr := 1, strong := 1, unownedCnt := 0, weakCnt := 1,
        deallocating := false, teardownCalls := 0, slotBound := true,
        slotDestroyCalls := 0 } (by decide) rfl rfl rfl rfl).1,
   (c8_final_release_weak_load_linearizable true
      { objPtr := 1, strong := 1, unownedCnt := 0, weakCnt := 1,
        deallocating := false, teardownCalls := 0, slotBound := true,
        slotDestroyCalls := 0 } (by decide) rfl rfl rfl rfl).2.2⟩

/-- Counting invariant for operation sequences: from any live state, a
sequence respecting the handle discipline leaves the strong count at
`start + retains - releases`, never over-releases, and invokes teardown
exactly once if the sequence ends at the zero transition and never
otherwise. -/
theorem runOps_count_spec : ∀ (ops : List RcOp) (s : ObjState),
    s.objPtr ≠ 0 → s.deallocating = false → validOps s.strong ops = true →
    (runOps s ops).strong = s.strong + numRetains ops - numReleases ops
    ∧ numReleases ops ≤ s.strong + numRetains ops
    ∧ (runOps s ops).teardownCalls
        = s.teardownCalls +
          (if numReleases ops = s.strong + numRetains ops ∧ 1 ≤ numReleases ops
           then 1 else 0) := by
  intro ops
  induction ops with
  | nil =>
      intro s hp hd hv
      simp [runOps, numRetains, numReleases]
  | cons op rest ih =>
      intro s hp hd hv
      cases op with
      | retain =>
          simp only [validOps, Bool.and_eq_true, decide_eq_true_eq] at hv
          obtain ⟨hc, hv⟩ := hv
          have hstep : stepOp s RcOp.retain
              = { s with strong := s.strong + 1 } := by
            simp [stepOp, Owned.clone, Owned.as_ptr, swift_retain, hp]
          rw [runOps, hstep]
          obtain ⟨h1, h2, h3⟩ :=
            ih { s with strong := s.strong + 1 } hp hd (by simpa using hv)
          simp only at h1 h2 h3
          refine ⟨?_, ?_, ?_⟩
          · simp only [numRetains, numReleases]
            omega
          · simp only [numRetains, numReleases]
            omega
          · simp only [numRetains, numReleases]
            rw [h3]
            split_ifs <;> omega
      | release =>
          simp only [validOps, Bool.and_eq_true, decide_eq_true_eq] at hv
          obtain ⟨hc, hv⟩ := hv
          by_cases hc1 : s.strong = 1
          · have hstep : stepOp s RcOp.release
                = { s with
                    strong := 0
                    deallocating := true
                    teardownCalls := s.teardownCalls + 1 } := by
              simp [stepOp, Owned.dropHandle, Owned.as_ptr, swift_release,
                hp, hc1]
            rw [runOps, hstep]
            cases rest with
            | nil =>
                simp [runOps, numRetains, numReleases, hc1]
            | cons op2 rest2 =>
                rw [hc1] at hv
                cases op2 <;> simp [validOps] at hv
          · have hc2 : 2 ≤ s.strong := by omega
            have hstep : stepOp s RcOp.release
                = { s with strong := s.strong - 1 } := by
              simp [stepOp, Owned.dropHandle, Owned.as_ptr, swift_release,
                hp, hc1]
            rw [runOps, hstep]
            obtain ⟨h1, h2, h3⟩ :=
              ih { s with strong := s.strong - 1 } hp hd (by simpa using hv)
            simp only at h1 h2 h3
            refine ⟨?_, ?_, ?_⟩
            · simp only [numRetains, numReleases]
              omega
            · simp only [numRetains, numReleases]
              omega
            · simp only [numRetains, numReleases]
              rw [h3]
              split_ifs <;> omega

/-- Retains distribute over list concatenation. -/
theorem numRetains_append (l1 l2 : List RcOp) :
    numRetains (l1 ++ l2) = numRetains l1 + numRetains l2 := by
  induction l1 with
  | nil => simp [numRetains]
  | cons op r ih => cases op <;> simp [numRetains, ih] <;> omega

/-- Releases distribute over list concatenation. -/
theorem numReleases_append (l1 l2 : List RcOp) :
    numReleases (l1 ++ l2) = numReleases l1 + numReleases l2 := by
  induction l1 with
  | nil => simp [numReleases]
  | cons op r ih => cases op <;> simp [numReleases, ih] <;> omega

/-- A run of `k` retains counts `k` retains. -/
theorem numRetains_replicate_retain (k : Nat) :
    numRetains (List.replicate k RcOp.retain) = k := by
  induction k with
  | zero => rfl
  | succ k ih => simp [List.replicate_succ, numRetains, ih]

/-- A run of releases counts no retains. -/
theorem numRetains_replicate_release (k : Nat) :
    numRetains (List.replicate k RcOp.release) = 0 := by
  induction k with
  | zero => rfl
  | succ k ih => simp [List.replicate_succ, numRetains, ih]

/-- A run of retains counts no releases. -/
theorem numReleases_replicate_retain (k : Nat) :
    numReleases (List.replicate k RcOp.retain) = 0 := by
  induction k with
  | zero => rfl
  | succ k ih => simp [List.replicate_succ, numReleases, ih]

/-- A run of `k` releases counts `k` releases. -/
theorem numReleases_replicate_release (k : Nat) :
    numReleases (List.replicate k RcOp.release) = k := by
  induction k with
  | zero => rfl
  | succ k ih => simp [List.replicate_succ, numReleases, ih]

/-- From strong count `n`, exactly `n` drops respect the handle
discipline. -/
theorem validOps_replicate_release (n : Nat) :
    validOps n (List.replicate n RcOp.release) = true := by
  induction n with
  | zero => rfl
  | succ n ih => simp [List.replicate_succ, validOps, ih]

/-- From strong count `c ≥ 1`, `k` clones followed by `c + k` drops respect
the handle discipline. -/
theorem validOps_retain_then_release : ∀ (k c : Nat), 1 ≤ c →
    validOps c (List.replicate k RcOp.retain
      ++ List.replicate (c + k) RcOp.release) = true := by
  intro k
  induction k with
  | zero =>
      intro c hc
      simpa using validOps_replicate_release c
  | succ k ih =>
      intro c hc
      rw [List.replicate_succ, List.cons_append]
      simp only [validOps, Bool.and_eq_true, decide_eq_true_eq]
      refine ⟨hc, ?_⟩
      rw [show c + (k + 1) = (c + 1) + k by omega]
      exact ih (c + 1) (by omega)

/-- The clone-k-then-drop-all sequence respects the handle discipline. -/
theorem validOps_cloneDropSeq (k : Nat) :
    validOps 1 (cloneDropSeq k) = true := by
  have := validOps_retain_then_release k 1 (by omega)
  rw [cloneDropSeq, show k + 1 = 1 + k by omega]
  exact this

/-- Claim C1: for a freshly allocated object (strong count 1) and every
sequence of `Owned` clone/retain and drop/release operations respecting the
handle discipline, the strong count after the sequence equals
`1 + retains - releases`, and teardown is triggered exactly once if the
sequence ends at the transition of the strong count to zero
(`releases = 1 + retains`) and never otherwise — never twice; in
particular, cloning an `Owned` handle `k` times and then dropping all
`k + 1` handles triggers teardown exactly once and leaves the strong count
at zero. -/
theorem c1_strong_count_and_single_teardown :
    (∀ (s : ObjState) (ops : List RcOp),
        s.objPtr ≠ 0 → s.strong = 1 → s.deallocating = false →
        validOps 1 ops = true →
        (runOps s ops).strong = 1 + numRetains ops - numReleases ops
        ∧ (runOps s ops).teardownCalls
            = s.teardownCalls
              + (if numReleases ops = 1 + numRetains ops then 1 else 0))
    ∧ (∀ (s : ObjState) (k : Nat),
        s.objPtr ≠ 0 → s.strong = 1 → s.deallocating = false →
        s.teardownCalls = 0 →
        (runOps s (cloneDropSeq k)).teardownCalls = 1
        ∧ (runOps s (cloneDropSeq k)).strong = 0) := by
  have main : ∀ (s : ObjState) (ops : List RcOp),
      s.objPtr ≠ 0 → s.strong = 1 → s.deallocating = false →
      validOps 1 ops = true →
      (runOps s ops).strong = 1 + numRetains ops - numReleases ops
      ∧ (runOps s ops).teardownCalls
          = s.teardownCalls
            + (if numReleases ops = 1 + numRetains ops then 1 else 0) := by
    intro s ops hp h1 hd hv
    obtain ⟨g1, g2, g3⟩ := runOps_count_spec ops s hp hd (by rw [h1]; exact hv)
    rw [h1] at g1 g2 g3
    refine ⟨g1, ?_⟩
    rw [g3]
    split_ifs <;> omega
  refine ⟨main, ?_⟩
  intro s k hp h1 hd ht
  obtain ⟨g1, g2⟩ := main s (cloneDropSeq k) hp h1 hd (validOps_cloneDropSeq k)
  rw [cloneDropSeq, numRetains_append, numReleases_append,
    numRetains_replicate_retain, numRetains_replicate_release,
    numReleases_replicate_retain, numReleases_replicate_release] at g1 g2
  constructor
  · rw [cloneDropSeq, g2, ht]
    split_ifs <;> omega
  · rw [cloneDropSeq, g1]
    omega

/-- Witness for C1: a fresh object, the sequence retain-release-release, and
the clone-twice-drop-three sequence. -/
theorem c1_strong_count_and_single_teardown_witness :
    ((runOps
        { objPtr := 3, strong := 1, unownedCnt := 0, weakCnt := 0,
          deallocating := false, teardownCalls := 0, slotBound := false,
          slotDestroyCalls := 0 }
        [RcOp.retain, RcOp.release, RcOp.release]).strong = 0
      ∧ (runOps
          { objPtr := 3, strong := 1, unownedCnt := 0, weakCnt := 0,
            deallocating := false, teardownCalls := 0, slotBound := false,
            slotDestroyCalls := 0 }
          [RcOp.retain, RcOp.release, RcOp.release]).teardownCalls = 1)
    ∧ ((runOps
          { objPtr := 3, strong := 1, unownedCnt := 0, weakCnt := 0,
            deallocating := false, teardownCalls := 0, slotBound := false,
            slotDestroyCalls := 0 } (cloneDropSeq 2)).teardownCalls = 1
      ∧ (runOps
          { objPtr := 3, strong := 1, unownedCnt := 0, weakCnt := 0,
            deallocating := false, teardownCalls := 0, slotBound := false,
            slotDestroyCalls := 0 } (cloneDropSeq 2)).strong = 0) :=
  ⟨c1_strong_count_and_single_teardown.1
      { objPtr := 3, strong := 1, unownedCnt := 0, weakCnt := 0,
        deallocating := false, teardownCalls := 0, slotBound := false,
        slotDestroyCalls := 0 }
      [RcOp.retain, RcOp.release, RcOp.release]
      (by decide) rfl rfl (by decide),
   c1_strong_count_and_single_teardown.2
      { objPtr := 3, strong := 1, unownedCnt := 0, weakCnt := 0,
        deallocating := false, teardownCalls := 0, slotBound := false,
        slotDestroyCalls := 0 } 2 (by decide) rfl rfl rfl⟩

end SwiftBindgen
